/-
Verification of the kabuda_data_analysis pipeline.

Shallow embedding of the hybrid extraction/normalization pipeline
(src/司机业务清洗与分类/data_analysis_business.py), the flow-table
aggregation (src/可视化/visualize_business.py chart_flow,
src/司机业务清洗与分类/demo.py df_clean) and the business cleaning step
(src/司机业务清洗与分类/data_clean_business.py clean_business_core /
process_orders).

Python regexes are embedded as explicit backtracking matchers over
List Char, faithful to Python `re` semantics (leftmost match; at one
position alternatives are tried in pattern order; greedy/lazy
quantifiers with backtracking).  Machine floats produced by
pandas to_numeric are modelled as Rat; the numeric-literal parser
covers optional sign, digits and a single decimal point (scientific
notation and exotic unicode digits are out of scope).  Pandas row
order produced by sorted groupby / value_counts sorting is modelled as
first-occurrence order; all statements below are insensitive to row
order.
-/
import Mathlib

namespace Kabuda

/-! ### Generic character/list helpers -/

/-- Does `needle` occur as a prefix of `hay`? -/
def startsWith : List Char → List Char → Bool
  | [], _ => true
  | _ :: _, [] => false
  | a :: as, b :: bs => a = b && startsWith as bs

/-- If `needle` is a prefix of `hay`, return the rest of `hay`. -/
def eatLead : List Char → List Char → Option (List Char)
  | [], cs => some cs
  | _ :: _, [] => none
  | a :: as, c :: cs => if a = c then eatLead as cs else none

/-- Does `needle` occur as a contiguous substring of `hay`?
(Python `needle in hay`.) -/
def hasSub (needle : List Char) : List Char → Bool
  | [] => needle.isEmpty
  | c :: rest => startsWith needle (c :: rest) || hasSub needle rest

/-- Python `str.lower()` restricted to ASCII letters (all strings
involved are ASCII/Chinese, where Python and Lean agree). -/
def lowerChars (cs : List Char) : List Char := cs.map Char.toLower

/-- Consume exactly `n` characters satisfying `p`. -/
def consumeN (p : Char → Bool) : Nat → List Char → Option (List Char)
  | 0, cs => some cs
  | _ + 1, [] => none
  | n + 1, c :: cs => if p c then consumeN p n cs else none

/-- Python `str.strip()`: drop leading and trailing whitespace. -/
def trimChars (cs : List Char) : List Char :=
  ((cs.dropWhile Char.isWhitespace).reverse.dropWhile Char.isWhitespace).reverse

/-- `str.strip()` on a `String`. -/
def strTrim (s : String) : String := String.mk (trimChars s.data)

/-! ### RuleExtractor: extract_info (data_analysis_business.py lines 102-146) -/

/-- `re.search` of an alternation of literal keywords, as a boolean:
does any of the keywords occur in the text?  Used for the ordered
business-category rules. -/
def containsKw (text : String) (kws : List String) : Bool :=
  kws.any (fun k => hasSub k.data text.data)

/-- Alternatives of the 区域判定 regex (line 119-121), in pattern order. -/
def AREA_ALTS : List String :=
  ["多伦多", "Toronto", "皮尔逊", "Markham", "Richmond Hill", "万锦",
   "Scarborough", "士嘉堡", "约克", "North York", "Etobicoke",
   "密西沙加", "Mississauga", "机场"]

/-- At one position, try the area alternatives in order (case
insensitively, `re.I`); return the length of the matched literal. -/
def altMatchAt (hay : List Char) : List String → Option Nat
  | [] => none
  | a :: as =>
    if startsWith (lowerChars a.data) (lowerChars hay) then some a.data.length
    else altMatchAt hay as

/-- Leftmost match of the area alternation; `group(0)` is the slice of
the original text. -/
def areaSearch : List Char → Option (List Char)
  | [] => none
  | c :: rest =>
    match altMatchAt (c :: rest) AREA_ALTS with
    | some n => some ((c :: rest).take n)
    | none => areaSearch rest

/-- Match of the amount pattern `[💰\$](\d+(\.\d+)?)` at one position;
returns `group(1)` (digits, with the optional fractional part). -/
def amountAt : List Char → Option (List Char)
  | [] => none
  | c :: rest =>
    if c = '💰' ∨ c = '$' then
      let d := rest.takeWhile Char.isDigit
      if d.isEmpty then none
      else
        match rest.drop d.length with
        | '.' :: r3 =>
          let f := r3.takeWhile Char.isDigit
          if f.isEmpty then some d else some (d ++ '.' :: f)
        | _ => some d
    else none

/-- Leftmost match of the amount pattern (line 124). -/
def amountScan : List Char → Option (List Char)
  | [] => none
  | c :: rest =>
    match amountAt (c :: rest) with
    | some d => some d
    | none => amountScan rest

/-- The character class `[一-龥a-zA-Z0-9 ,#\-]` of the
from-to pattern (line 128). -/
def inAddrClass (c : Char) : Bool :=
  (0x4e00 ≤ c.toNat && c.toNat ≤ 0x9fa5) || ('a' ≤ c && c ≤ 'z') ||
  ('A' ≤ c && c ≤ 'Z') || ('0' ≤ c && c ≤ '9') ||
  c = ' ' || c = ',' || c = '#' || c = '-'

/-- The separator alternation `(?:到|—|-|－|——)`: `——` can never be
reached because its prefix `—` is tried first, so each separator is a
single character. -/
def isSepChar (c : Char) : Bool :=
  c = '到' || c = '—' || c = '-' || c = '－'

/-- `\s*([class]+)` for the destination group, with the regex
backtracking on `\s*` (greedy, longest whitespace run first; a space
is also in the class, so on failure the engine backs off). -/
def group2From (cs : List Char) : Nat → Option (List Char)
  | 0 =>
    let t := cs.takeWhile inAddrClass
    if t.isEmpty then none else some t
  | k + 1 =>
    let t := (cs.drop (k + 1)).takeWhile inAddrClass
    if t.isEmpty then group2From cs k else some t

/-- `\s*([class]+)` after the separator. -/
def group2Match (cs : List Char) : Option (List Char) :=
  group2From cs (cs.takeWhile Char.isWhitespace).length

/-- The lazy origin group followed by the separator and the
destination: `([class]+?)(?:到|—|-|－|——)\s*([class]+)`.  Lazy means
the separator is tried before extending the group; if the remainder
fails the group is extended (the separator `到` and `-` are themselves
in the class). -/
def addrTry (acc : List Char) : List Char → Option (List Char × List Char)
  | [] => none
  | c :: rest =>
    let stopHere : Option (List Char × List Char) :=
      if !acc.isEmpty && isSepChar c then
        match group2Match rest with
        | some g2 => some (acc.reverse, g2)
        | none => none
      else none
    match stopHere with
    | some r => some r
    | none => if inAddrClass c then addrTry (c :: acc) rest else none

/-- `\s*` between `从` and the lazy group, greedy with backtracking. -/
def g1From (cs : List Char) : Nat → Option (List Char × List Char)
  | 0 => addrTry [] cs
  | k + 1 =>
    match addrTry [] (cs.drop (k + 1)) with
    | some r => some r
    | none => g1From cs k

/-- First match of the from-to pattern
`从\s*([class]+?)(?:到|—|-|－|——)\s*([class]+)` (line 127-129,
`re.findall(...)[0]`): scan for `从`, attempt the tail, continue on
failure. -/
def addrScan : List Char → Option (List Char × List Char)
  | [] => none
  | c :: rest =>
    if c = '从' then
      match g1From rest (rest.takeWhile Char.isWhitespace).length with
      | some r => some r
      | none => addrScan rest
    else addrScan rest

/-- `:` or `：`. -/
def matchColon (c : Char) : Bool := c = ':' || c = '：'

/-- Time alternative 1, `\d{1,2}[:：]\d{2}\s*(?:AM|PM|am|pm)?`, with
`k` digits for the greedy `\d{1,2}`. -/
def alt1With (k : Nat) (cs : List Char) : Option Nat :=
  match consumeN Char.isDigit k cs with
  | none => none
  | some r1 =>
    match r1 with
    | [] => none
    | c :: r2 =>
      if matchColon c then
        match consumeN Char.isDigit 2 r2 with
        | none => none
        | some r3 =>
          let ws := (r3.takeWhile Char.isWhitespace).length
          let r4 := r3.drop ws
          let mer :=
            if ["AM", "PM", "am", "pm"].any (fun s => startsWith s.data r4)
            then 2 else 0
          some (k + 1 + 2 + ws + mer)
      else none

def alt1At (cs : List Char) : Option Nat :=
  (alt1With 2 cs).orElse fun _ => alt1With 1 cs

/-- Time alternative 2, `\d{1,2}点半?`. -/
def alt2With (k : Nat) (cs : List Char) : Option Nat :=
  match consumeN Char.isDigit k cs with
  | some (c :: rest) =>
    if c = '点' then
      if rest.head? = some '半' then some (k + 2) else some (k + 1)
    else none
  | _ => none

def alt2At (cs : List Char) : Option Nat :=
  (alt2With 2 cs).orElse fun _ => alt2With 1 cs

/-- Time alternative 3, `\d{1,2}/\d{1,2}\s*\d{1,2}[:：]\d{2}`, for one
choice of the three greedy `\d{1,2}` lengths. -/
def alt3With (k1 k2 k3 : Nat) (cs : List Char) : Option Nat :=
  match consumeN Char.isDigit k1 cs with
  | none => none
  | some r1 =>
    match r1 with
    | '/' :: r2 =>
      match consumeN Char.isDigit k2 r2 with
      | none => none
      | some r3 =>
        let ws := (r3.takeWhile Char.isWhitespace).length
        let r4 := r3.drop ws
        match consumeN Char.isDigit k3 r4 with
        | none => none
        | some r5 =>
          match r5 with
          | c :: r6 =>
            if matchColon c then
              (consumeN Char.isDigit 2 r6).map
                (fun _ => k1 + 1 + k2 + ws + k3 + 1 + 2)
            else none
          | [] => none
    | _ => none

/-- Backtracking over the three greedy quantifiers, rightmost first. -/
def alt3At (cs : List Char) : Option Nat :=
  (alt3With 2 2 2 cs).orElse fun _ =>
  (alt3With 2 2 1 cs).orElse fun _ =>
  (alt3With 2 1 2 cs).orElse fun _ =>
  (alt3With 2 1 1 cs).orElse fun _ =>
  (alt3With 1 2 2 cs).orElse fun _ =>
  (alt3With 1 2 1 cs).orElse fun _ =>
  (alt3With 1 1 2 cs).orElse fun _ =>
  alt3With 1 1 1 cs

/-- `\d{0,2}` greedy. -/
def d02 (r : List Char) : Nat := ((r.takeWhile Char.isDigit).take 2).length

/-- Time alternative 4, `(?:上午|下午|中午)\s*\d{1,2}[:：]?\d{0,2}`
(everything after the required digit is optional, so no backtracking
is ever needed there). -/
def alt4At : List Char → Option Nat
  | a :: b :: rest =>
    if (a = '上' || a = '下' || a = '中') && b = '午' then
      let ws := (rest.takeWhile Char.isWhitespace).length
      let r1 := rest.drop ws
      let d1 := ((r1.takeWhile Char.isDigit).take 2).length
      if d1 = 0 then none
      else
        let r2 := r1.drop d1
        let tl :=
          match r2 with
          | c :: r3 => if matchColon c then 1 + d02 r3 else d02 r2
          | [] => 0
        some (2 + ws + d1 + tl)
    else none
  | _ => none

/-- At one position, the four time alternatives in pattern order. -/
def timeAt (cs : List Char) : Option Nat :=
  (alt1At cs).orElse fun _ =>
  (alt2At cs).orElse fun _ =>
  (alt3At cs).orElse fun _ =>
  alt4At cs

/-- Leftmost match of the time pattern (lines 135-137). -/
def timeScan : List Char → Option (List Char)
  | [] => none
  | c :: rest =>
    match timeAt (c :: rest) with
    | some n => some ((c :: rest).take n)
    | none => timeScan rest

/-- The `ExtractedFields` record produced by `extract_info`
(the source dict keys, lines 139-146, are not valid Lean identifiers;
`biz_struct` = 业务类型_struct, `area_struct` = 区域_struct,
`amount_struct` = 金额_struct, `origin` = 起点, `dest` = 终点,
`time_struct` = 时间_struct). -/
structure Extracted where
  biz_struct : String
  area_struct : String
  amount_struct : String
  origin : String
  dest : String
  time_struct : String
deriving DecidableEq

/-- `extract_info(text)` (lines 102-146): ordered category rules
(first match wins), area alternation, amount pattern, from-to pattern
(first match), time alternation.  Any field with no match is `""`. -/
def extract_info (text : String) : Extracted :=
  let cs := text.data
  let type_ :=
    if containsKw text ["接机", "送机"] then "接送机"
    else if containsKw text ["包车", "一日游", "多日游", "包日"] then "包车"
    else if containsKw text ["跑腿", "代买", "代取", "代送", "代购"] then "跑腿"
    else if containsKw text ["行李寄存", "寄存"] then "行李寄存"
    else if containsKw text ["搬家", "搬运"] then "搬家"
    else if containsKw text ["电话", "叫醒", "叫人"] then "代办/其它"
    else ""
  let area_ := match areaSearch cs with | some m => String.mk m | none => ""
  let amount := match amountScan cs with | some d => String.mk d | none => ""
  let se := match addrScan cs with
    | some (s, e) => (String.mk s, String.mk e)
    | none => ("", "")
  let time_ := match timeScan cs with | some m => String.mk m | none => ""
  { biz_struct := type_, area_struct := area_, amount_struct := amount,
    origin := se.1, dest := se.2, time_struct := time_ }

/-- The end-to-end scenario input text of the spec (§8). -/
def demo_text : String := "从密西沙加 Square One 到Toronto downtown 接机 💰80"

/-! ### NormalizationCache: AREA_MAP, area_cache and normalize_area
(data_analysis_business.py lines 53-99) -/

/-- The static direct-mapping table (lines 53-61), in dict insertion
order — the Python `for k, v in AREA_MAP.items()` loop visits entries
in this order. -/
def AREA_MAP : List (String × String) :=
  [("Toronto", "多伦多"), ("多伦多", "多伦多"), ("toronto", "多伦多"),
   ("North York", "北约克"), ("北约克", "北约克"), ("northyork", "北约克"),
   ("Scarborough", "士嘉堡"), ("士嘉堡", "士嘉堡"), ("scarborough", "士嘉堡"),
   ("Markham", "万锦"), ("万锦", "万锦"), ("markham", "万锦"),
   ("Richmond Hill", "列治文山"), ("列治文山", "列治文山"),
   ("Mississauga", "密西沙加"), ("密西沙加", "密西沙加"),
   ("Etobicoke", "怡陶碧谷"), ("皮尔逊", "皮尔逊机场"),
   ("Pearson", "皮尔逊机场"), ("机场", "皮尔逊机场")]

/-- The run state of the normalizer: the dynamic `area_cache` dict and
the number of LLM calls performed so far.  The write of the cache file
after each insert (lines 91-92) keeps the on-disk copy equal to
`area_cache`, so one in-memory map models both. -/
structure NormState where
  area_cache : List (String × String)
  llmCalls : Nat
deriving DecidableEq

/-- `orig_text in area_cache` / `area_cache[orig_text]` — dict lookup
by exact key.  Keys are unique (an insert happens only on a miss), so
a first-match association list is an exact model. -/
def cacheLookup (cache : List (String × String)) (k : String) : Option String :=
  match cache.find? (fun p => p.1 == k) with
  | some p => some p.2
  | none => none

/-- `normalize_area(text, ...)` (lines 68-99).  The external
`openai.chat.completions.create` call is the oracle `llm`: `some ans`
is the answer text `resp.choices[0].message.content`, `none` is a
raised exception.  On an exception the function logs, sets
`norm = orig_text` and — crucially — does not insert into the cache. -/
def normalize_area (llm : String → Option String) (text : String)
    (st : NormState) : String × NormState :=
  let orig := strTrim text
  match AREA_MAP.find? (fun kv => hasSub (lowerChars kv.1.data) (lowerChars orig.data)) with
  | some kv => (kv.2, st)
  | none =>
    match cacheLookup st.area_cache orig with
    | some v => (v, st)
    | none =>
      match llm orig with
      | some ans =>
        let norm0 := String.mk ((trimChars ans.data).filter (fun c => !(c = '。')))
        let norm := if norm0 = "" then orig else norm0
        (norm, ⟨(orig, norm) :: st.area_cache, st.llmCalls + 1⟩)
      | none => (orig, ⟨st.area_cache, st.llmCalls + 1⟩)

/-! ### FallbackClassifier: llm_extract and batching
(data_analysis_business.py lines 148-188) -/

/-- Leftmost match of `label[:：]\s*(\S+)`: scan for the label literal
followed by a colon, skip whitespace, capture a maximal nonempty
non-whitespace run; on failure resume one position further. -/
def labelSearch (lab : List Char) : List Char → Option (List Char)
  | [] => none
  | c :: rest =>
    match eatLead lab (c :: rest) with
    | some after =>
      (match after with
       | d :: rest2 =>
         if matchColon d then
           let v := (rest2.dropWhile Char.isWhitespace).takeWhile
             (fun ch => !ch.isWhitespace)
           if v.isEmpty then labelSearch lab rest else some v
         else labelSearch lab rest
       | [] => labelSearch lab rest)
    | none => labelSearch lab rest

/-- One iteration of the `for text in batch` loop of `llm_extract`
(lines 154-182): on success the answer is stripped and the two labeled
fields are parsed with `业务类型[:：]\s*(\S+)` and `区域[:：]\s*(\S+)`
(a missing label yields `""`); on an exception the item yields
`("", "")` and the loop continues. -/
def llm_extract_one (llm : String → Option String) (text : String) :
    String × String :=
  match llm text with
  | none => ("", "")
  | some ansRaw =>
    let ans := strTrim ansRaw
    (match labelSearch "业务类型".data ans.data with
     | some v => String.mk v
     | none => "",
     match labelSearch "区域".data ans.data with
     | some v => String.mk v
     | none => "")

/-- `llm_extract(batch)`: the per-item loop, one output row per input
text, in input order. -/
def llm_extract (llm : String → Option String) : List String → List (String × String)
  | [] => []
  | t :: ts => llm_extract_one llm t :: llm_extract llm ts

/-- `batches = [llm_targets[i:i+10] for i in range(0, len, 10)]`
(line 186): split into runs of 10 with a shorter final run. -/
def chunks10 : List String → List (List String)
  | [] => []
  | a0 :: a1 :: a2 :: a3 :: a4 :: a5 :: a6 :: a7 :: a8 :: a9 :: rest =>
    [a0, a1, a2, a3, a4, a5, a6, a7, a8, a9] :: chunks10 rest
  | l => [l]

/-- `llm_out = pd.concat([llm_extract(b) for b in batches])`
(line 187). -/
def llm_out (llm : String → Option String) (targets : List String) :
    List (String × String) :=
  ((chunks10 targets).map (llm_extract llm)).flatten

/-! ### FieldNormalizer merge step (data_analysis_business.py
lines 148-150 and 185-188) -/

/-- The row-selection predicate of `to_llm_idx` (line 149): the record
is unresolved when its rule category or its rule region is empty. -/
def to_llm_flag (e : Extracted) : Bool :=
  e.biz_struct == "" || e.area_struct == ""

/-- `llm_targets = df.loc[to_llm_idx, "订单概述"].tolist()` (line 150):
the descriptions of the unresolved rows, in row order. -/
def llm_targets (texts : List String) : List String :=
  texts.filter (fun t => to_llm_flag (extract_info t))

/-- `extract_results.loc[to_llm_idx, ["业务类型_struct", "区域_struct"]]
= llm_out.values` (line 188): walk the extraction rows; each row whose
`to_llm_flag` is set receives the next classifier output pair —
both columns are assigned. -/
def scatter : List Extracted → List (String × String) → List Extracted
  | [], _ => []
  | e :: es, outs =>
    if to_llm_flag e then
      match outs with
      | o :: outs2 =>
        { e with biz_struct := o.1, area_struct := o.2 } :: scatter es outs2
      | [] => e :: scatter es []
    else e :: scatter es outs

/-- The whole rule-plus-fallback extraction pass over the 订单概述
column (lines 148-188): rule extraction per row, selection of the
unresolved rows, batched classification, scatter of the classifier
output back over the selected rows. -/
def pipeline_extract (llm : String → Option String) (texts : List String) :
    List Extracted :=
  scatter (texts.map extract_info) (llm_out llm (llm_targets texts))

/-- Functional description of the merge, proved equal to
`pipeline_extract` below: per row, the classifier pair replaces both
fields exactly when the row was unresolved. -/
def mergeOne (llm : String → Option String) (t : String) : Extracted :=
  let e := extract_info t
  if to_llm_flag e then
    { e with biz_struct := (llm_extract_one llm t).1,
             area_struct := (llm_extract_one llm t).2 }
  else e

/-! ### Aggregator: fillna and value_counts
(data_analysis_business.py line 49 and lines 227-297) -/

/-- `df = df.fillna("")` (line 49) at the level of one cell: a missing
value becomes the empty string. -/
def fillna (c : Option String) : String := c.getD ""

/-- One step of counting for `value_counts`: bump the count of `x`,
or open a new group at the end. -/
def bumpCount (acc : List (String × Nat)) (x : String) : List (String × Nat) :=
  match acc with
  | [] => [(x, 1)]
  | (y, n) :: rest =>
    if y == x then (y, n + 1) :: rest else (y, n) :: bumpCount rest x

/-- `series.value_counts(dropna=False)` as (label, count) rows — one
row per distinct value, counting every occurrence.  Pandas returns
the rows sorted by count; the claims below only use the multiset of
rows, so first-occurrence order is used. -/
def value_counts (l : List String) : List (String × Nat) :=
  l.foldl bumpCount []

/-! ### Aggregator: the flow table
(visualize_business.py chart_flow lines 142-171, demo.py df_clean
lines 126-139, data_analysis_business.py line 300) -/

/-- `pd.to_numeric(x, errors="coerce")` on one cell, modelled for
optionally-signed integer/decimal literals; any other string is a
parse failure (NaN).  Results are `Rat` (pandas uses float64). -/
def digitsVal (cs : List Char) : Nat :=
  cs.foldl (fun n c => n * 10 + (c.toNat - '0'.toNat)) 0

def to_numeric (s : String) : Option Rat :=
  let t0 := trimChars s.data
  let sign : Int := match t0 with | '-' :: _ => -1 | _ => 1
  let t := match t0 with
    | '-' :: r => r
    | '+' :: r => r
    | r => r
  match t.splitOn '.' with
  | [d] =>
    if !d.isEmpty && d.all Char.isDigit then
      some ((sign * (digitsVal d : Int) : Int) : Rat)
    else none
  | [d, f] =>
    if d.all Char.isDigit && f.all Char.isDigit && !(d.isEmpty && f.isEmpty) then
      some (mkRat (sign * (digitsVal (d ++ f) : Int)) (10 ^ f.length))
    else none
  | _ => none

/-- One input row of the flow sheet as the chart code sees it: the
起点归一, 终点归一 and 订单数 cells, each possibly missing (NaN). -/
def FlowRow := Option String × Option String × Option String

/-- Stages `dropna → strip/to_numeric → dropna` of the chained
pipeline (visualize_business.py lines 156-163, demo.py lines 127-134):
rows with a missing cell are dropped, endpoints are stripped, the
volume is coerced to numeric and rows where coercion failed are
dropped. -/
def cleanFlow (rows : List FlowRow) : List (String × String × Rat) :=
  rows.filterMap fun r =>
    match r with
    | (some s, some t, some v) =>
      match to_numeric v with
      | some q => some (strTrim s, strTrim t, q)
      | none => none
    | _ => none

/-- `.loc[lambda d: d[src] != d[tgt]]` — 去自循环 (drop self-loops,
visualize_business.py line 164, demo.py line 135). -/
def dropSelfLoops (l : List (String × String × Rat)) : List (String × String × Rat) :=
  l.filter (fun r => !(r.1 == r.2.1))

/-- One step of grouped summation: add `v` to the (s, t) group, or
open a new group at the end. -/
def bumpFlow (acc : List (String × String × Rat)) (s t : String) (v : Rat) :
    List (String × String × Rat) :=
  match acc with
  | [] => [(s, t, v)]
  | (s0, t0, w) :: rest =>
    if s0 == s && t0 == t then (s0, t0, w + v) :: rest
    else (s0, t0, w) :: bumpFlow rest s t v

/-- `.groupby([src, tgt], as_index=False)[val].sum()`
(visualize_business.py lines 165-166): one row per distinct endpoint
pair, with the summed volume.  Pandas emits the groups in sorted key
order; group order is irrelevant to every statement below, so
first-occurrence order is used. -/
def groupSumFlow (l : List (String × String × Rat)) : List (String × String × Rat) :=
  l.foldl (fun acc r => bumpFlow acc r.1 r.2.1 r.2.2) []

/-- `chart_flow(df, min_value=3)` up to its table stage
(visualize_business.py lines 156-167): clean, drop self-loops, group,
sum, and keep only groups with `value >= min_value`.  When the result
is empty the function prints a notice and returns without drawing —
the flow table it computed is the empty table. -/
def chart_flow (rows : List FlowRow) (min_value : Int) :
    List (String × String × Rat) :=
  (groupSumFlow (dropSelfLoops (cleanFlow rows))).filter
    (fun r => (min_value : Rat) ≤ r.2.2)

/-- `df_clean` of demo.py (lines 126-139): the same chained pipeline
with the threshold fixed at 3. -/
def df_clean (rows : List FlowRow) : List (String × String × Rat) :=
  chart_flow rows 3

/-- One step of grouped row counting for the 流向统计 sheet. -/
def bumpStat (acc : List (String × String × Nat)) (s t : String) :
    List (String × String × Nat) :=
  match acc with
  | [] => [(s, t, 1)]
  | (s0, t0, n) :: rest =>
    if s0 == s && t0 == t then (s0, t0, n + 1) :: rest
    else (s0, t0, n) :: bumpStat rest s t

/-- The 流向统计 sheet (data_analysis_business.py line 300):
`df.groupby(["起点归一", "终点归一"]).size()` — group the normalized
endpoint pairs and count rows.  No self-loop filtering and no
threshold.  (`sort_values` only reorders rows.) -/
def flowStat (l : List (String × String)) : List (String × String × Nat) :=
  l.foldl (fun acc r => bumpStat acc r.1 r.2) []

/-! ### The business cleaning step
(data_clean_business.py clean_business_core lines 165-332 and
process_orders lines 410-432)

The input file is loaded with `dtype=str`, so a cell is a string or
NaN; intermediate steps replace whole columns by numeric series.  A
cell is therefore a string or a numeric-or-NaN value. -/

inductive Cell where
  | str (s : String)
  | num (q : Option Rat)
deriving DecidableEq

/-- A DataFrame: a row count and named columns.  (Columns produced by
the steps below all have `nrows` cells.) -/
structure Df where
  nrows : Nat
  cols : List (String × List Cell)
deriving DecidableEq

def getCol? (df : Df) (c : String) : Option (List Cell) :=
  (df.cols.find? (fun p => p.1 == c)).map (fun p => p.2)

def hasCol (df : Df) (c : String) : Bool := (getCol? df c).isSome

/-- Column assignment `df[c] = v`: replace in place when the column
exists, append it otherwise (pandas puts a new column last). -/
def setCol (df : Df) (c : String) (v : List Cell) : Df :=
  if hasCol df c then
    ⟨df.nrows, df.cols.map (fun p => if p.1 == c then (c, v) else p)⟩
  else ⟨df.nrows, df.cols ++ [(c, v)]⟩

/-- `df.drop(columns=c)`. -/
def dropCol (df : Df) (c : String) : Df :=
  ⟨df.nrows, df.cols.filter (fun p => !(p.1 == c))⟩

/-- The guarded per-column steps, `if c in df.columns: df[c] = f(df[c])`:
when the column is missing the step is skipped. -/
def withCol (df : Df) (c : String) (f : List Cell → List Cell) : Df :=
  match getCol? df c with
  | none => df
  | some col => setCol df c (f col)

/-- `pd.to_numeric(cell, errors="coerce")` on a cell. -/
def cellToNumeric : Cell → Option Rat
  | .str s => to_numeric s
  | .num q => q

/-- Is this cell NaN (`isna`)?  String cells are never NaN. -/
def isNaCell : Cell → Bool
  | .str _ => false
  | .num q => q.isNone

/-- `x.astype(str).str.replace(r"[^\d\.]", "", regex=True)` on one
cell followed by numeric coercion — the body of `to_float`
(lines 197-200).  A NaN cell renders as the string `"nan"`, which
strips to `""` and coerces to NaN again. -/
def stripToFloatCell : Cell → Cell
  | .str s => .num (to_numeric (String.mk (s.data.filter
      (fun c => c.isDigit || c = '.'))))
  | .num q => .num q

/-- `to_float(col)` (lines 197-200) as used in the assignments
`df[col] = to_float(col)`: when the column is missing an empty float
series is assigned, which pandas aligns to an all-NaN column. -/
def to_float (df : Df) (c : String) : List Cell :=
  match getCol? df c with
  | some col => col.map stripToFloatCell
  | none => List.replicate df.nrows (.num none)

/-- The 客户评分 block (lines 202-213): out-of-range scores and
empty/NaN cells become `"缺失"`. -/
def scoreStep (df : Df) : Df :=
  withCol df "客户评分" fun col =>
    let score := col.map (fun c => cellToNumeric (stripToFloatCell c))
    let col1 := (col.zip score).map fun p =>
      match p.2 with
      | some q => if q < 0 ∨ 10 < q then Cell.str "缺失" else p.1
      | none => p.1
    col1.map fun c =>
      if isNaCell c || c == Cell.str "" then Cell.str "缺失" else c

/-- The amount-mismatch flag (lines 221-227): a new column 金额不匹配
holding the message at mismatching rows and NaN elsewhere. -/
def mismatchStep (df : Df) : Df :=
  let sale := (getCol? df "订单销售价").getD []
  let drv := (getCol? df "司机应收").getD []
  let comp := (getCol? df "公司应收").getD []
  let flags := (sale.zip (drv.zip comp)).map fun p =>
    match cellToNumeric p.1, cellToNumeric p.2.1, cellToNumeric p.2.2 with
    | some a, some b, some c =>
      if a ≠ b + c then Cell.str "司机应收+公司应收 ≠ 订单销售价" else Cell.num none
    | _, _, _ => Cell.num none
  setCol df "金额不匹配" flags

/-- Raw 订单类型 options (lines 239-242). -/
def raw_types : List String :=
  ["宠管", "代驾", "接机/送机", "接送", "跑腿", "闪送", "小程序接送机", "其他"]

/-- The 归类映射 (lines 248-259).  `.map(mapping)` sends a value with
no mapping entry to NaN. -/
def typeMapping : List (String × String) :=
  [("接机/送机", "接送服务"), ("接送", "接送服务"), ("小程序接送机", "接送服务"),
   ("跑腿", "跑腿服务"), ("闪送", "跑腿服务"), ("代驾", "代驾服务"),
   ("宠管", "宠物服务"), ("包车", "包车服务"), ("其他", "其他"), ("缺失", "缺失")]

/-- The 订单类型 transformation (lines 244-260): fill NaN and `""`
with 缺失, send values outside `raw_types` to 其他, then apply the
mapping dict. -/
def orderTypeTransform (col : List Cell) : List Cell :=
  let col1 := col.map fun c =>
    match c with
    | .num none => Cell.str "缺失"
    | .str "" => Cell.str "缺失"
    | c => c
  let col2 := col1.map fun c =>
    match c with
    | .str s => if raw_types.contains s then Cell.str s else Cell.str "其他"
    | _ => Cell.str "其他"
  col2.map fun c =>
    match c with
    | .str s =>
      match (typeMapping.find? (fun p => p.1 == s)).map (fun p => p.2) with
      | some v => Cell.str v
      | none => Cell.num none
    | c => c

/-- One guarded valid-set step (lines 265-283): fill NaN/`""` with
缺失 and send values outside the valid set to `other`. -/
def validSetStep (valid : List String) (other : String) (col : List Cell) :
    List Cell :=
  let col1 := col.map fun c =>
    match c with
    | .num none => Cell.str "缺失"
    | .str "" => Cell.str "缺失"
    | c => c
  col1.map fun c =>
    match c with
    | .str s => if valid.contains s then Cell.str s else Cell.str other
    | _ => Cell.str other

/-- The 订单编号 block (lines 291-300): duplicated non-missing ids
become "订单编号重复", missing ids become 缺失.  Both masks are
computed on the original column. -/
def orderIdStep (col : List Cell) : List Cell :=
  col.map fun c =>
    let missing := isNaCell c || c == Cell.str ""
    let dup := ((col.filter (fun d => d == c)).length ≥ 2) && !missing
    if missing then Cell.str "缺失"
    else if dup then Cell.str "订单编号重复"
    else c

/-- Does the string contain a Chinese character
(`[一-龥]`)? -/
def hasChineseChar (s : String) : Bool :=
  s.data.any (fun c => 0x4e00 ≤ c.toNat && c.toNat ≤ 0x9fa5)

/-- The 客户微信号 block (lines 304-311). -/
def wechatStep (col : List Cell) : List Cell :=
  col.map fun c =>
    match c with
    | .num none => Cell.str "缺失"
    | .str s => if s = "" || hasChineseChar s then Cell.str "缺失" else Cell.str s
    | c => c

/-- The 实际收款方 block (lines 315-317). -/
def payeeStep (col : List Cell) : List Cell :=
  col.map fun c =>
    if isNaCell c || c == Cell.str "" then Cell.str "缺失" else c

/-- The 车辆信息 block (lines 321-324): empty after `strip()` counts
as missing. -/
def vehicleStep (col : List Cell) : List Cell :=
  col.map fun c =>
    match c with
    | .num none => Cell.str "缺失"
    | .str s => if (trimChars s.data).isEmpty then Cell.str "缺失" else Cell.str s
    | c => c

/-- `process_orders(df)` (lines 410-432): drop the 确认报单 column if
present, then — unconditionally — read 已确认报单, coerce it to
numeric, write 缺失 where coercion failed, 是 where the value is 1 and
否 where it is 0 (any other numeric value keeps its original cell).
A missing 已确认报单 column raises `KeyError`. -/
def process_orders (df : Df) : Except String Df :=
  let df1 := if hasCol df "确认报单" then dropCol df "确认报单" else df
  match getCol? df1 "已确认报单" with
  | none => .error "KeyError: 已确认报单"
  | some col =>
    let col2 := col.map fun c =>
      match cellToNumeric c with
      | none => Cell.str "缺失"
      | some v => if v = 1 then Cell.str "是" else if v = 0 then Cell.str "否" else c
    .ok (setCol df1 "已确认报单" col2)

/-- The steps of `clean_business_core` before the 订单类型 block
(lines 177-234): the 订单时间 branch is a literal `pass`; then the
guarded 客户评分 block, the three unconditional numeric-column
assignments and the mismatch flag. -/
def clean_business_head (df0 : Df) : Df :=
  let df1 := scoreStep df0
  let df2 := setCol df1 "订单销售价" (to_float df1 "订单销售价")
  let df3 := setCol df2 "司机应收" (to_float df2 "司机应收")
  let df4 := setCol df3 "公司应收" (to_float df3 "公司应收")
  mismatchStep df4

/-- The guarded steps of `clean_business_core` after the 订单类型
block (lines 265-330): categorical valid-set blocks, text/id blocks,
and the final `process_orders` call. -/
def clean_business_tail (df6 : Df) : Except String Df :=
  let df7 := withCol df6 "支付方式" (validSetStep ["微信", "支付宝", "现金"] "其他")
  let df8 := withCol df7 "支付状态" (validSetStep ["已支付", "未支付", "待支付"] "缺失")
  let df9 := withCol df8 "发票状态" (validSetStep ["已开票", "未开票"] "缺失")
  let df10 := withCol df9 "订单状态" (validSetStep ["已完成", "进行中", "已取消", "已过期"] "缺失")
  let df11 := withCol df10 "是否已结算" (validSetStep ["是", "否"] "缺失")
  let df12 := withCol df11 "订单编号" orderIdStep
  let df13 := withCol df12 "客户微信号" wechatStep
  let df14 := withCol df13 "实际收款方" payeeStep
  let df15 := withCol df14 "车辆信息" vehicleStep
  process_orders df15

/-- `clean_business_core(df)` (lines 165-332): head steps, the
unguarded 订单类型 block (a missing column raises `KeyError`), tail
steps and `process_orders`. -/
def clean_business_core (df0 : Df) : Except String Df :=
  match getCol? (clean_business_head df0) "订单类型" with
  | none => .error "KeyError: 订单类型"
  | some col =>
    clean_business_tail (setCol (clean_business_head df0) "订单类型"
      (orderTypeTransform col))

/-- Does the cleaning step fail (raise)? -/
def cleanFails (r : Except String Df) : Bool :=
  match r with
  | .error _ => true
  | .ok _ => false

/-- Sum of the counts of a distribution table. -/
def sumCounts (l : List (String × Nat)) : Nat := (l.map Prod.snd).sum


/-! ### Helper lemmas -/

theorem llm_extract_eq_map (llm : String → Option String) (ts : List String) :
    llm_extract llm ts = ts.map (llm_extract_one llm) := by
  induction ts with
  | nil => rfl
  | cons t ts ih => simp [llm_extract, ih]

theorem chunks10_flatten (l : List String) : (chunks10 l).flatten = l := by
  induction l using chunks10.induct <;> simp [chunks10, *]

theorem llm_out_eq_map (llm : String → Option String) (ts : List String) :
    llm_out llm ts = ts.map (llm_extract_one llm) := by
  unfold llm_out
  have h1 : (chunks10 ts).map (llm_extract llm) =
      (chunks10 ts).map (fun b => b.map (llm_extract_one llm)) :=
    List.map_congr_left (fun b _ => llm_extract_eq_map llm b)
  rw [h1, ← List.map_flatten, chunks10_flatten]



theorem pipeline_extract_eq_map (llm : String → Option String) (texts : List String) :
    pipeline_extract llm texts = texts.map (mergeOne llm) := by
  unfold pipeline_extract
  rw [llm_out_eq_map]
  induction texts with
  | nil => rfl
  | cons t ts ih =>
    by_cases h : to_llm_flag (extract_info t)
    · simp only [List.map_cons, llm_targets, List.filter_cons, h, if_pos,
        scatter, mergeOne]
      simp only [llm_targets, List.map_cons] at ih ⊢
      simp [scatter, h, ih, mergeOne]
    · simp only [List.map_cons, llm_targets, List.filter_cons, h, scatter, mergeOne]
      simp only [llm_targets] at ih
      simp [scatter, h, ih, mergeOne]

theorem sumCounts_bumpCount (acc : List (String × Nat)) (x : String) :
    sumCounts (bumpCount acc x) = sumCounts acc + 1 := by
  induction acc with
  | nil => rfl
  | cons p rest ih =>
    by_cases h : p.1 == x
    · simp [bumpCount, h, sumCounts]
      omega
    · simp [bumpCount, h, sumCounts] at ih ⊢
      omega

theorem sumCounts_foldl (l : List String) (acc : List (String × Nat)) :
    sumCounts (l.foldl bumpCount acc) = sumCounts acc + l.length := by
  induction l generalizing acc with
  | nil => simp
  | cons x xs ih => simp [List.foldl, ih, sumCounts_bumpCount]; omega

theorem value_counts_sum (l : List String) :
    sumCounts (value_counts l) = l.length := by
  unfold value_counts
  rw [sumCounts_foldl]
  simp [sumCounts]

theorem bumpFlow_keys {P : String → String → Prop} :
    ∀ (acc : List (String × String × Rat)) (s t : String) (v : Rat),
    (∀ e ∈ acc, P e.1 e.2.1) → P s t →
    ∀ e ∈ bumpFlow acc s t v, P e.1 e.2.1 := by
  intro acc
  induction acc with
  | nil =>
    intro s t v _ h e he
    simp [bumpFlow] at he
    subst he; exact h
  | cons p rest ih =>
    obtain ⟨s0, t0, w⟩ := p
    intro s t v hacc h e he
    by_cases hp : (s0 == s && t0 == t) = true
    · simp only [bumpFlow, hp, if_pos] at he
      rcases List.mem_cons.mp he with he | he
      · subst he; exact hacc (s0, t0, w) (List.mem_cons_self _ _)
      · exact hacc e (List.mem_cons_of_mem _ he)
    · simp only [bumpFlow, hp, if_neg, Bool.false_eq_true, not_false_iff] at he
      rcases List.mem_cons.mp he with he | he
      · subst he; exact hacc (s0, t0, w) (List.mem_cons_self _ _)
      · exact ih s t v (fun a ha => hacc a (List.mem_cons_of_mem _ ha)) h e he

theorem groupSumFlow_keys {P : String → String → Prop}
    (l : List (String × String × Rat))
    (hl : ∀ r ∈ l, P r.1 r.2.1) :
    ∀ e ∈ groupSumFlow l, P e.1 e.2.1 := by
  unfold groupSumFlow
  suffices h : ∀ acc, (∀ e ∈ acc, P e.1 e.2.1) →
      ∀ e ∈ l.foldl (fun acc r => bumpFlow acc r.1 r.2.1 r.2.2) acc, P e.1 e.2.1 by
    exact h [] (by simp)
  induction l with
  | nil => intro acc hacc e he; exact hacc e he
  | cons r rs ih =>
    intro acc hacc e he
    exact ih (fun r hr => hl r (List.mem_cons_of_mem _ hr))
      _ (bumpFlow_keys acc r.1 r.2.1 r.2.2 hacc (hl r (List.mem_cons_self _ _))) e he



theorem hasCol_iff (df : Df) (c' : String) :
    hasCol df c' = true ↔ ∃ p ∈ df.cols, p.1 = c' := by
  unfold hasCol getCol?
  cases hfind : df.cols.find? (fun p => p.1 == c') with
  | none =>
    simp only [Option.map_none', Option.isSome_none, Bool.false_eq_true, false_iff]
    rintro ⟨p, hp, hp1⟩
    have := List.find?_eq_none.mp hfind p hp
    simp [hp1] at this
  | some q =>
    simp only [Option.map_some', Option.isSome_some, true_iff]
    have h1 := List.find?_some hfind
    have h2 := List.mem_of_find?_eq_some hfind
    exact ⟨q, h2, by simpa using h1⟩

theorem hasCol_setCol_ne (df : Df) (c : String) (v : List Cell) (c' : String)
    (h : c' ≠ c) :
    hasCol (setCol df c v) c' = hasCol df c' := by
  have key : (hasCol (setCol df c v) c' = true) ↔ (hasCol df c' = true) := by
    rw [hasCol_iff, hasCol_iff]
    unfold setCol
    by_cases hc : hasCol df c
    · simp only [hc, if_pos]
      simp only [List.mem_map]
      constructor
      · rintro ⟨p, ⟨q, hq, hfq⟩, hp⟩
        subst hfq
        by_cases hqc : q.1 = c
        · simp [hqc] at hp
          exact absurd hp.symm h
        · simp [hqc] at hp
          exact ⟨q, hq, hp⟩
      · rintro ⟨q, hq, hq1⟩
        have hqc : q.1 ≠ c := fun hh => h (by rw [← hq1, hh])
        refine ⟨q, ⟨q, hq, ?_⟩, hq1⟩
        simp [hqc]
    · simp only [hc, if_neg, Bool.false_eq_true, not_false_iff]
      simp only [List.mem_append, List.mem_singleton]
      constructor
      · rintro ⟨p, hp | hp, h1⟩
        · exact ⟨p, hp, h1⟩
        · subst hp
          simp only at h1
          exact absurd h1.symm h
      · rintro ⟨p, hp, h1⟩
        exact ⟨p, Or.inl hp, h1⟩
  cases h1 : hasCol (setCol df c v) c' <;> cases h2 : hasCol df c' <;> simp_all

theorem hasCol_withCol_ne (df : Df) (c : String) (f : List Cell → List Cell)
    (c' : String) (h : c' ≠ c) :
    hasCol (withCol df c f) c' = hasCol df c' := by
  unfold withCol
  cases hg : getCol? df c with
  | none => rfl
  | some col => exact hasCol_setCol_ne _ _ _ _ h

theorem hasCol_dropCol_ne (df : Df) (c : String) (c' : String)
    (h : c' ≠ c) :
    hasCol (dropCol df c) c' = hasCol df c' := by
  have key : (hasCol (dropCol df c) c' = true) ↔ (hasCol df c' = true) := by
    rw [hasCol_iff, hasCol_iff]
    unfold dropCol
    simp only [List.mem_filter]
    constructor
    · rintro ⟨p, ⟨hp, _⟩, h1⟩
      exact ⟨p, hp, h1⟩
    · rintro ⟨p, hp, h1⟩
      have hpc : p.1 ≠ c := fun hh => h (by rw [← h1, hh])
      refine ⟨p, ⟨hp, ?_⟩, h1⟩
      simp [hpc]
  cases h1 : hasCol (dropCol df c) c' <;> cases h2 : hasCol df c' <;> simp_all

theorem hasCol_scoreStep (df : Df) (c' : String) (h : c' ≠ "客户评分") :
    hasCol (scoreStep df) c' = hasCol df c' := by
  unfold scoreStep
  exact hasCol_withCol_ne _ _ _ _ h

theorem hasCol_mismatchStep (df : Df) (c' : String) (h : c' ≠ "金额不匹配") :
    hasCol (mismatchStep df) c' = hasCol df c' := by
  unfold mismatchStep
  exact hasCol_setCol_ne _ _ _ _ h



theorem getCol?_eq_none_of_hasCol_false (df : Df) (c : String)
    (h : hasCol df c = false) : getCol? df c = none := by
  unfold hasCol at h
  cases hg : getCol? df c with
  | none => rfl
  | some col => rw [hg] at h; simp at h

theorem process_orders_fails (df : Df)
    (h : hasCol df "已确认报单" = false) :
    cleanFails (process_orders df) = true := by
  unfold process_orders
  have h2 : hasCol (if hasCol df "确认报单" then dropCol df "确认报单" else df)
      "已确认报单" = false := by
    by_cases hc : hasCol df "确认报单"
    · simp only [hc, if_pos]
      rw [hasCol_dropCol_ne _ _ _ (by decide)]
      exact h
    · simp only [hc, Bool.false_eq_true, if_neg, not_false_iff]
      exact h
  simp only [getCol?_eq_none_of_hasCol_false _ _ h2]
  rfl

theorem clean_business_tail_fails (df : Df)
    (h : hasCol df "已确认报单" = false) :
    cleanFails (clean_business_tail df) = true := by
  unfold clean_business_tail
  apply process_orders_fails
  rw [hasCol_withCol_ne _ _ _ _ (by decide), hasCol_withCol_ne _ _ _ _ (by decide),
    hasCol_withCol_ne _ _ _ _ (by decide), hasCol_withCol_ne _ _ _ _ (by decide),
    hasCol_withCol_ne _ _ _ _ (by decide), hasCol_withCol_ne _ _ _ _ (by decide),
    hasCol_withCol_ne _ _ _ _ (by decide), hasCol_withCol_ne _ _ _ _ (by decide),
    hasCol_withCol_ne _ _ _ _ (by decide)]
  exact h

theorem hasCol_head_confirm (df0 : Df) :
    hasCol (clean_business_head df0) "已确认报单" = hasCol df0 "已确认报单" := by
  simp only [clean_business_head]
  rw [hasCol_mismatchStep _ _ (by decide), hasCol_setCol_ne _ _ _ _ (by decide),
    hasCol_setCol_ne _ _ _ _ (by decide), hasCol_setCol_ne _ _ _ _ (by decide),
    hasCol_scoreStep _ _ (by decide)]

/-- Missing 已确认报单 always makes clean_business_core fail. -/
theorem clean_fails_without_confirm (df : Df)
    (h : hasCol df "已确认报单" = false) :
    cleanFails (clean_business_core df) = true := by
  unfold clean_business_core
  split
  · rfl
  · apply clean_business_tail_fails
    rw [hasCol_setCol_ne _ _ _ _ (by decide), hasCol_head_confirm]
    exact h



/-! ### Claim theorems -/

set_option maxRecDepth 10000 in
/-- C1 (counterexample): the claim extends self-loop exclusion to
"every flow table the pipeline emits, including the 流向统计 sheet",
but the 流向统计 sheet is a bare `groupby(...).size()` with no
self-loop filter: 430 records normalized to 密西沙加 → 密西沙加
produce exactly the self-loop row (密西沙加, 密西沙加, 430) in that
sheet — the spec's own example row. -/
theorem C1_flowStat_selfloop_cex :
    ("密西沙加", "密西沙加", 430) ∈
      flowStat (List.replicate 430 ("密西沙加", "密西沙加")) := by
  decide

/-- C1 (amended): the flow tables produced by `chart_flow`
(visualize_business.py) and `df_clean` (demo.py, `chart_flow · 3`)
never contain a row with origin equal to destination — self-loops are
dropped before grouping; the 流向统计 sheet of the aggregation script,
however, retains them. -/
theorem C1_chart_flow_no_selfloop (rows : List FlowRow) (min_value : Int)
    (e : String × String × Rat) (h : e ∈ chart_flow rows min_value) :
    e.1 ≠ e.2.1 := by
  have h1 : e ∈ groupSumFlow (dropSelfLoops (cleanFlow rows)) :=
    (List.mem_filter.mp h).1
  refine groupSumFlow_keys (P := fun s t => s ≠ t) _ ?_ e h1
  intro r hr
  have h2 := (List.mem_filter.mp hr).2
  simpa using h2

/-- C1 (witness): a concrete non-self-loop edge above threshold is in
the output, and the theorem yields its endpoints' distinctness. -/
theorem C1_witness : ("密西沙加" : String) ≠ "多伦多" :=
  C1_chart_flow_no_selfloop [(some "密西沙加", some "多伦多", some "5")] 3
    ("密西沙加", "多伦多", 5) (by decide)

/-- C2 (counterexample): the claim says a second `normalize_area` call
on the identical raw string never re-invokes the fallback service,
"including when the first fallback call failed" — but on an exception
`normalize_area` does not insert into the cache, so a second call on
the same unknown string calls the service again: with a failing
oracle, two calls on "XyzStreet 99" perform two service calls. -/
theorem C2_failed_call_not_cached_cex :
    (normalize_area (fun _ => none) "XyzStreet 99"
      (normalize_area (fun _ => none) "XyzStreet 99" ⟨[], 0⟩).2).2.llmCalls = 2 := by
  decide

/-- C2 (amended): when the first fallback call on a raw string
succeeds (or no call was needed), normalizing the identical string a
second time in the same run performs no further service call and
returns the same canonical value — the (trimmed, exact) string was
inserted into the dynamic cache and the second lookup hits it.  After
a FAILED call nothing is cached and a later call re-invokes the
service. -/
theorem C2_second_call_cached_amended (llm : String → Option String)
    (text : String) (st : NormState) (a : String)
    (h : llm (strTrim text) = some a) :
    (normalize_area llm text (normalize_area llm text st).2).1 =
      (normalize_area llm text st).1 ∧
    (normalize_area llm text (normalize_area llm text st).2).2.llmCalls =
      (normalize_area llm text st).2.llmCalls := by
  unfold normalize_area
  cases hfind : AREA_MAP.find?
      (fun kv => hasSub (lowerChars kv.1.data) (lowerChars (strTrim text).data)) with
  | some kv => simp [hfind]
  | none =>
    cases hc : cacheLookup st.area_cache (strTrim text) with
    | some v => simp [hfind, hc]
    | none =>
      simp only [hfind, hc, h]
      simp [cacheLookup, List.find?]

/-- C2 (witness): concrete successful oracle; the second call is a
cache hit with the same value and no new service call. -/
theorem C2_witness :
    (normalize_area (fun _ => some "北约克") "XyzStreet 99"
      (normalize_area (fun _ => some "北约克") "XyzStreet 99" ⟨[], 0⟩).2).1 =
      (normalize_area (fun _ => some "北约克") "XyzStreet 99" ⟨[], 0⟩).1 ∧
    (normalize_area (fun _ => some "北约克") "XyzStreet 99"
      (normalize_area (fun _ => some "北约克") "XyzStreet 99" ⟨[], 0⟩).2).2.llmCalls =
      (normalize_area (fun _ => some "北约克") "XyzStreet 99" ⟨[], 0⟩).2.llmCalls :=
  C2_second_call_cached_amended (fun _ => some "北约克") "XyzStreet 99" ⟨[], 0⟩
    "北约克" rfl

/-- C3 (counterexample): the merge step does NOT prefer non-empty rule
values: "接机去月球" rule-extracts category 接送机 (non-empty) with an
empty region, so the row is sent to the classifier, and the
assignment overwrites BOTH columns — the classifier's 跑腿 replaces
the non-empty rule category. -/
theorem C3_rule_value_overwritten_cex :
    (extract_info "接机去月球").biz_struct = "接送机" ∧
    pipeline_extract (fun _ => some "业务类型: 跑腿\n区域: 多伦多") ["接机去月球"] =
      [⟨"跑腿", "多伦多", "", "", "", ""⟩] := by
  constructor
  · decide
  · decide

/-- C3 (amended): the classifier is invoked exactly for the rows whose
rule category OR rule region is empty, and for such a row the
classifier output replaces BOTH fields (even a non-empty one); a row
keeps its rule values unchanged exactly when both category and region
were non-empty from rules. -/
theorem C3_merge_replaces_both_amended :
    (∀ (llm : String → Option String) (texts : List String),
      pipeline_extract llm texts = texts.map (mergeOne llm)) ∧
    (∀ (llm : String → Option String) (t : String),
      to_llm_flag (extract_info t) = false → mergeOne llm t = extract_info t) :=
  ⟨pipeline_extract_eq_map,
   fun llm t h => by simp [mergeOne, h]⟩

/-- C4 (counterexample): on the end-to-end input the from-to pattern
does not stop where the claim says: the lazy origin group keeps its
trailing space and the greedy destination class also matches the CJK
characters 接机 and the following space, so the extracted destination
is not "Toronto downtown" (and the origin is not
"密西沙加 Square One"). -/
theorem C4_extract_boundaries_cex :
    (extract_info demo_text).dest ≠ "Toronto downtown" ∧
    (extract_info demo_text).origin ≠ "密西沙加 Square One" := by
  constructor
  · decide
  · decide

/-- C4 (amended): on
"从密西沙加 Square One 到Toronto downtown 接机 💰80" rule extraction
returns category 接送机, amount "80", origin "密西沙加 Square One "
(trailing space) and destination "Toronto downtown 接机 " (the greedy
class captures the CJK 接机 and spaces); normalizing that destination
hits the direct alias table ("Toronto" is a known alias substring,
case-insensitively) and yields canonical 多伦多 with no fallback call
and no cache change, for every oracle and every cache state. -/
theorem C4_end_to_end_amended :
    extract_info demo_text =
      { biz_struct := "接送机", area_struct := "密西沙加",
        amount_struct := "80", origin := "密西沙加 Square One ",
        dest := "Toronto downtown 接机 ", time_struct := "" } ∧
    ∀ (llm : String → Option String) (st : NormState),
      normalize_area llm "Toronto downtown 接机 " st = ("多伦多", st) := by
  constructor
  · decide
  · intro llm st
    rfl

/-- C5 (confirmed): the batched fallback classifier returns exactly
one result per input in input order (the concatenation of the
size-10 batches equals the per-item map), an individual exception
yields an empty pair without aborting the rest, and in a concrete
10-item batch whose fifth item fails the other nine still receive
their parsed results. -/
theorem C5_batch_order_and_failure :
    (∀ (llm : String → Option String) (ts : List String),
      llm_out llm ts = ts.map (llm_extract_one llm)) ∧
    (∀ (llm : String → Option String) (t : String),
      llm t = none → llm_extract_one llm t = ("", "")) ∧
    llm_out (fun t => if t = "t4" then none
        else some "业务类型: 接送机\n区域: 多伦多")
      ["t0", "t1", "t2", "t3", "t4", "t5", "t6", "t7", "t8", "t9"] =
      [("接送机", "多伦多"), ("接送机", "多伦多"), ("接送机", "多伦多"),
       ("接送机", "多伦多"), ("", ""), ("接送机", "多伦多"),
       ("接送机", "多伦多"), ("接送机", "多伦多"), ("接送机", "多伦多"),
       ("接送机", "多伦多")] := by
  refine ⟨llm_out_eq_map, fun llm t h => by simp [llm_extract_one, h], ?_⟩
  decide

/-- C6 (confirmed): the flow threshold filter keeps exactly the
grouped non-self-loop edges whose summed volume is at least the
threshold; on edges with volumes [5, 2, 3] and threshold 3 the
volume-5 and volume-3 edges survive and the volume-2 edge is dropped;
a threshold filtering everything out yields the empty table (the
function returns, it does not fail). -/
theorem C6_threshold_filter :
    (∀ (rows : List FlowRow) (min_value : Int) (e : String × String × Rat),
      e ∈ chart_flow rows min_value ↔
        e ∈ groupSumFlow (dropSelfLoops (cleanFlow rows)) ∧
          (min_value : Rat) ≤ e.2.2) ∧
    chart_flow [(some "A", some "B", some "5"), (some "C", some "D", some "2"),
                (some "E", some "F", some "3")] 3 =
      [("A", "B", (5 : Rat)), ("E", "F", (3 : Rat))] ∧
    chart_flow [(some "A", some "B", some "5"), (some "C", some "D", some "2"),
                (some "E", some "F", some "3")] 100 = [] := by
  refine ⟨?_, by decide, by decide⟩
  intro rows min_value e
  unfold chart_flow
  rw [List.mem_filter]
  simp

/-- C7 (confirmed): for every categorical column the distribution
produced by `value_counts(dropna=False)` over the `fillna("")`-filled
cells has counts summing to the number of input records — missing
cells are counted under the explicit "" category and no record is
dropped. -/
theorem C7_distribution_sum :
    (∀ col : List (Option String),
      sumCounts (value_counts (col.map fillna)) = col.length) ∧
    value_counts ([some "是", none, some "否", some "是"].map fillna) =
      [("是", 2), ("", 1), ("否", 1)] := by
  refine ⟨?_, by decide⟩
  intro col
  rw [value_counts_sum, List.length_map]

/-- C8 (counterexample): the claim says the classifier batch contains
only NON-EMPTY unresolved descriptions, but the row selection
`(业务类型_struct == "") | (区域_struct == "")` has no non-emptiness
filter: an empty description rule-extracts to all-empty fields, is
therefore unresolved, and its (empty) text IS put into `llm_targets`. -/
theorem C8_empty_text_batched_cex : llm_targets [""] = [""] := by decide

/-- C8 (amended): an empty description yields an all-empty extraction
record, and the set of texts sent to the classifier is exactly the
unresolved descriptions — those whose rule category or rule region is
empty — with no filter on text emptiness, so empty descriptions are
included. -/
theorem C8_empty_text_unresolved_amended :
    extract_info "" = ⟨"", "", "", "", "", ""⟩ ∧
    (∀ (texts : List String) (t : String),
      t ∈ llm_targets texts ↔
        t ∈ texts ∧ to_llm_flag (extract_info t) = true) := by
  refine ⟨by decide, ?_⟩
  intro texts t
  unfold llm_targets
  rw [List.mem_filter]

/-- C9 (confirmed): the category rules are tried in a fixed order with
first match winning, and the pickup/dropoff rule is first: any text
containing 接机 or 送机 — in particular one also containing an errand
keyword — resolves to 接送机. -/
theorem C9_rule_precedence (text : String)
    (h1 : containsKw text ["接机", "送机"] = true)
    (_h2 : containsKw text ["跑腿", "代买", "代取", "代送", "代购"] = true) :
    (extract_info text).biz_struct = "接送机" := by
  unfold extract_info
  simp [h1]

/-- C9 (witness): a text with both a pickup keyword and an errand
keyword resolves to 接送机. -/
theorem C9_witness : (extract_info "接机顺便跑腿").biz_struct = "接送机" :=
  C9_rule_precedence "接机顺便跑腿" (by decide) (by decide)

/-- C10 (counterexample): two parts of the claim fail on the code.
The 已确认报单 mapping does not send "anything else" to 缺失: the
numeric cell "2" is left unchanged.  And 已确认报单 is not the only
unguarded column: `clean_business_core` also reads 订单类型
unconditionally, so a DataFrame that HAS 已确认报单 but lacks
订单类型 still raises. -/
theorem C10_not_single_partial_point_cex :
    process_orders ⟨1, [("已确认报单", [Cell.str "2"])]⟩ =
      .ok ⟨1, [("已确认报单", [Cell.str "2"])]⟩ ∧
    clean_business_core ⟨1, [("已确认报单", [Cell.str "1"])]⟩ =
      .error "KeyError: 订单类型" :=
  ⟨rfl, rfl⟩

/-- C10 (amended): `clean_business_core` is partial on its input
schema: it unconditionally reads 已确认报单 (inside `process_orders`,
mapping numeric 1 to 是, 0 to 否, unparseable cells to 缺失, and
leaving any other numeric value unchanged), so every input DataFrame
lacking that column makes the operation raise rather than skip; the
guarded steps do not mask this.  However it is not partial at only
one point: the 订单类型 column is read unconditionally too. -/
theorem C10_unguarded_columns_amended :
    (∀ df : Df, hasCol df "已确认报单" = false →
      cleanFails (clean_business_core df) = true) ∧
    process_orders ⟨5, [("已确认报单",
        [Cell.str "1", Cell.str "0", Cell.str "2", Cell.str "abc",
         Cell.num none])]⟩ =
      .ok ⟨5, [("已确认报单",
        [Cell.str "是", Cell.str "否", Cell.str "2", Cell.str "缺失",
         Cell.str "缺失"])]⟩ ∧
    clean_business_core ⟨1, [("已确认报单", [Cell.str "1"])]⟩ =
      .error "KeyError: 订单类型" :=
  ⟨clean_fails_without_confirm, rfl, rfl⟩


end Kabuda
